import Mathlib

/-!
Verification development for the handbook-agent repository.

The first part embeds the conversation-orchestration graph of
`src/agent/agent.py`: the `AgentState` record, the node functions
(`_classify`, `_retrieve`, `_grade`, `_generate`, `_conversational`,
`_off_topic`, `_not_found`), the two routers (`_route_intent`,
`_route_grade`), the LangGraph partial-update merge (the `add_messages`
reducer appends to `messages`; every other field is last-write-wins),
and the per-turn driver `__call__`.

External capabilities (the classifier LLM, the Chroma retriever, the
grader LLM, the generator LLM) are parameters: the embedding is a
function of those oracles, exactly as the Python code is a function of
the injected model and vector store.

The second part embeds the evaluation harness: `latency_to_score`,
the LASH composite and pass rule of
`evaluation/lash/lash_evaluate.py` / `lash_metrics.py` (floats are
modelled as exact rationals), and the structural evaluator of
`evaluation/graph/graph_structure_eval.py`.
-/

namespace HandbookAgent

/-- Message roles, mirroring langchain's HumanMessage / AIMessage /
SystemMessage as used by agent.py. -/
inductive Role where
  | user
  | assistant
  | system
deriving DecidableEq, Repr

/-- A chat message: role plus text content. -/
structure Message where
  role : Role
  content : String
deriving DecidableEq, Repr

/-- A retrieved passage: page content plus the optional `title` entry of
its metadata dict (`doc.metadata.get('title', 'n/a')` in `_generate`). -/
structure Document where
  page_content : String
  title : Option String
deriving DecidableEq, Repr

/-- `OFF_TOPIC_REPLY` from agent.py. -/
def OFF_TOPIC_REPLY : String :=
  "I can only answer questions about the Agile Lab company handbook. " ++
  "Please ask me about Agile Lab's policies, culture, benefits, or engineering practices."

/-- `NOT_FOUND_REPLY` from agent.py. -/
def NOT_FOUND_REPLY : String :=
  "I couldn't find relevant information about this in the Agile Lab handbook. " ++
  "You might want to ask your manager or check internally."

/-- `AgentState` from agent.py: a TypedDict whose keys may be absent
until some node writes them, hence `Option` for every field except the
message log (which starts empty). -/
structure AgentState where
  messages : List Message
  documents : List Document
  intent : Option String
  relevant : Option Bool
  answer : Option String
  source : Option String
deriving DecidableEq, Repr

/-- The partial dict a node returns. Fields the node does not compute
are absent (`none`, or `[]` for the message delta). -/
structure NodeUpdate where
  messages : List Message := []
  documents : Option (List Document) := none
  intent : Option String := none
  relevant : Option Bool := none
  answer : Option String := none
  source : Option String := none
deriving DecidableEq, Repr

/-- The LangGraph merge of a node's partial update into the persisted
state: `messages` is declared with the `add_messages` reducer, so the
returned messages are appended to the history; every other field is
replaced when present in the update and kept otherwise. -/
def mergeState (s : AgentState) (u : NodeUpdate) : AgentState where
  messages := s.messages ++ u.messages
  documents := u.documents.getD s.documents
  intent := u.intent.orElse fun _ => s.intent
  relevant := u.relevant.orElse fun _ => s.relevant
  answer := u.answer.orElse fun _ => s.answer
  source := u.source.orElse fun _ => s.source

/-- `next(m for m in reversed(state["messages"]) if isinstance(m, HumanMessage))`:
the content of the most recent user message, `none` when there is none
(in Python a StopIteration would escape the node). -/
def lastHumanContent (ms : List Message) : Option String :=
  (ms.reverse.find? fun m => m.role == Role.user).map fun m => m.content

/-- The external capabilities injected into the agent. -/
structure Oracles where
  classifier : String → String
  retriever : String → List Document
  grader : String → List Document → Bool
  llm : List Message → String

/-- `_classify`: reads the last user message, invokes the classifier,
returns a partial update carrying only `intent`. -/
def classifyNode (classifier : String → String) (s : AgentState) : Option NodeUpdate :=
  (lastHumanContent s.messages).map fun q => { intent := some (classifier q) }

/-- `_retrieve`: reads the last user message, invokes the retriever,
returns a partial update carrying only `documents`. -/
def retrieveNode (retriever : String → List Document) (s : AgentState) : Option NodeUpdate :=
  (lastHumanContent s.messages).map fun q => { documents := some (retriever q) }

/-- `_grade`: reads the last user message, invokes the grader on it and
the current `documents`, and returns a partial update carrying only
`relevant`. The second component counts the grading-capability calls the
node performs: the body calls `self.grader(...)` exactly once,
unconditionally. -/
def gradeNode (grader : String → List Document → Bool) (s : AgentState) :
    Option (NodeUpdate × Nat) :=
  (lastHumanContent s.messages).map fun q =>
    ({ relevant := some (grader q s.documents) }, 1)

/-- The context block `_generate` builds from the retrieved documents. -/
def buildContext (docs : List Document) : String :=
  String.intercalate "\n\n"
    (docs.map fun doc =>
      "[Source: " ++ doc.title.getD "n/a" ++ "]\n" ++ doc.page_content)

/-- The system prompt of `_generate` (static text followed by the
context block). -/
def generateSystemContent (context : String) : String :=
  "You are a helpful assistant for Agile Lab employees.\n" ++
  "Answer questions based on the Agile Lab company handbook context provided below.\n" ++
  "Be conversational and elaborate your answers with relevant details from the handbook.\n" ++
  "If the context doesn't contain enough information, say so clearly.\n" ++
  "Always respond in the same language as the user's question.\n\nContext:\n" ++ context

/-- `_generate`: prompt = system message (instructions + context) then
the whole history; appends the model's reply and sets `answer`. -/
def generateNode (llm : List Message → String) (s : AgentState) : NodeUpdate :=
  let context := buildContext s.documents
  let response := llm (Message.mk Role.system (generateSystemContent context) :: s.messages)
  { messages := [Message.mk Role.assistant response], answer := some response }

/-- The system prompt of `_conversational`. -/
def conversationalSystemContent : String :=
  "You are a friendly assistant for Agile Lab employees.\n" ++
  "Respond naturally to greetings and casual messages.\nKeep it short and warm.\n" ++
  "Always respond in the same language as the user's message."

/-- `_conversational`: prompt = system message then the whole history;
appends the model's reply and sets `answer`. -/
def conversationalNode (llm : List Message → String) (s : AgentState) : NodeUpdate :=
  let response := llm (Message.mk Role.system conversationalSystemContent :: s.messages)
  { messages := [Message.mk Role.assistant response], answer := some response }

/-- `_off_topic`: appends one AIMessage with `OFF_TOPIC_REPLY` and sets
`answer` to the same constant; reads nothing from the state. -/
def offTopicNode (_s : AgentState) : NodeUpdate :=
  { messages := [Message.mk Role.assistant OFF_TOPIC_REPLY], answer := some OFF_TOPIC_REPLY }

/-- `_not_found`: appends one AIMessage with `NOT_FOUND_REPLY` and sets
`answer` to the same constant; reads nothing from the state. -/
def notFoundNode (_s : AgentState) : NodeUpdate :=
  { messages := [Message.mk Role.assistant NOT_FOUND_REPLY], answer := some NOT_FOUND_REPLY }

/-- `_route_intent`: `state.get("intent", "handbook")`, then the
three-way dispatch; anything that is not `conversational` or
`off_topic` goes to `retrieve`. -/
def route_intent (s : AgentState) : String :=
  let intent := s.intent.getD "handbook"
  if intent = "conversational" then "conversational"
  else if intent = "off_topic" then "off_topic"
  else "retrieve"

/-- `_route_grade`: `state["relevant"]` (a KeyError, hence `none`, when
the grade node has not run), `generate` when true, `not_found` when
false. -/
def route_grade (s : AgentState) : Option String :=
  s.relevant.map fun r => if r then "generate" else "not_found"

/-- One full turn of the compiled graph, as `__call__` drives it: the
invoke input `{"messages": [HumanMessage(question)], "source": "handbook"}`
is merged into the checkpointed state, then
START -> classify -> (conditional) -> ... -> END. Returns the final
state and the list of executed nodes, `none` when a node raises
(no user message found). -/
def runTurn (o : Oracles) (s : AgentState) (question : String) :
    Option (AgentState × List String) :=
  let s0 := mergeState s
    { messages := [Message.mk Role.user question], source := some "handbook" }
  match classifyNode o.classifier s0 with
  | none => none
  | some u1 =>
    let s1 := mergeState s0 u1
    let r := route_intent s1
    if r = "conversational" then
      some (mergeState s1 (conversationalNode o.llm s1), ["classify", "conversational"])
    else if r = "off_topic" then
      some (mergeState s1 (offTopicNode s1), ["classify", "off_topic"])
    else
      match retrieveNode o.retriever s1 with
      | none => none
      | some u2 =>
        let s2 := mergeState s1 u2
        match gradeNode o.grader s2 with
        | none => none
        | some (u3, _calls) =>
          let s3 := mergeState s2 u3
          match route_grade s3 with
          | none => none
          | some rg =>
            if rg = "generate" then
              some (mergeState s3 (generateNode o.llm s3),
                    ["classify", "retrieve", "grade", "generate"])
            else
              some (mergeState s3 (notFoundNode s3),
                    ["classify", "retrieve", "grade", "not_found"])

/-- `__call__`'s return value: `(result["answer"], result.get("source", "handbook"))`. -/
def agentCall (o : Oracles) (s : AgentState) (question : String) :
    Option (String × String) :=
  (runTurn o s question).bind fun r =>
    (r.1.answer).map fun a => (a, r.1.source.getD "handbook")

/-- A fresh thread: the state LangGraph materialises on first contact
with a new thread id (empty message log, no scalar fields set). -/
def freshState : AgentState :=
  { messages := [], documents := [], intent := none, relevant := none,
    answer := none, source := none }

end HandbookAgent

namespace HandbookAgent

/-- Claim C1: the routing decision after classify and after grade is a
pure function of the state's intent / relevant fields: `route_intent`
maps intent `conversational` to the conversational node, `off_topic` to
the off-topic node and `handbook` to retrieve; `route_grade` maps
`relevant = true` to generate and `relevant = false` to not_found; and
two states agreeing on the relevant field (resp. the intent field)
route identically, so repeated evaluation on the same snapshot yields
the same next node. -/
theorem router_pure_function_of_intent_and_relevant :
    (∀ s : AgentState, s.intent = some "conversational" → route_intent s = "conversational") ∧
    (∀ s : AgentState, s.intent = some "off_topic" → route_intent s = "off_topic") ∧
    (∀ s : AgentState, s.intent = some "handbook" → route_intent s = "retrieve") ∧
    (∀ s : AgentState, s.relevant = some true → route_grade s = some "generate") ∧
    (∀ s : AgentState, s.relevant = some false → route_grade s = some "not_found") ∧
    (∀ s t : AgentState, s.intent = t.intent → route_intent s = route_intent t) ∧
    (∀ s t : AgentState, s.relevant = t.relevant → route_grade s = route_grade t) := by
  refine ⟨?_, ?_, ?_, ?_, ?_, ?_, ?_⟩
  · intro s h; simp [route_intent, h]
  · intro s h; simp [route_intent, h]
  · intro s h; simp [route_intent, h]
  · intro s h; simp [route_grade, h]
  · intro s h; simp [route_grade, h]
  · intro s t h; simp [route_intent, h]
  · intro s t h; simp [route_grade, h]

/-- Witness for C1: the routers evaluated at concrete snapshots. -/
theorem router_pure_function_of_intent_and_relevant_witness :
    route_intent { freshState with intent := some "conversational" } = "conversational" ∧
    route_grade { freshState with relevant := some true } = some "generate" :=
  ⟨router_pure_function_of_intent_and_relevant.1
      { freshState with intent := some "conversational" } rfl,
   router_pure_function_of_intent_and_relevant.2.2.2.1
      { freshState with relevant := some true } rfl⟩

end HandbookAgent

namespace HandbookAgent

/-- `(mergeState s u).messages` is the old log with the update's delta
appended: the add_messages reducer never drops or replaces entries. -/
theorem mergeState_messages (s : AgentState) (u : NodeUpdate) :
    (mergeState s u).messages = s.messages ++ u.messages := rfl

/-- Deterministic capability stand-ins for the greeting scenario: the
classifier labels the message conversational, the chat model answers
with a fixed greeting. -/
def hiOracles : Oracles where
  classifier := fun _ => "conversational"
  retriever := fun _ => []
  grader := fun _ _ => true
  llm := fun _ => "Hello! How can I help you today?"

/-- Claim C2: on the input "Hi" on a fresh thread the turn takes the
path classify -> conversational -> END, but the returned source label
is "handbook", not "conversational": `__call__` seeds `source` with
"handbook" and no node ever writes the field, so
`result.get("source", "handbook")` returns "handbook" on every path. -/
theorem hi_turn_path_conversational_but_source_handbook :
    (runTurn hiOracles freshState "Hi").map (fun r => r.2) =
      some ["classify", "conversational"] ∧
    agentCall hiOracles freshState "Hi" =
      some ("Hello! How can I help you today?", "handbook") := by
  exact ⟨rfl, rfl⟩

/-- A thread with two completed prior turns, retrieved documents, and a
three-token current user message ("tell me more"): exactly the premise
of the short-follow-up heuristic described in the spec. -/
def followUpState : AgentState where
  messages := [
    Message.mk Role.user "What are the company values?",
    Message.mk Role.assistant "The Agile Lab values are listed in the handbook.",
    Message.mk Role.user "What about benefits?",
    Message.mk Role.assistant "Benefits include vacation days and training budget.",
    Message.mk Role.user "tell me more"]
  documents := [Document.mk "Vacation policy: employees get 25 days." (some "Benefits")]
  intent := some "handbook"
  relevant := none
  answer := none
  source := some "handbook"

/-- Counterexample to C3: the current user message has 3 tokens and the
thread has 2 prior user turns, yet `_grade` still performs exactly one
grading-capability call and takes `relevant` from the grader (here a
grader answering false), instead of skipping the call and forcing
`relevant = true`. -/
theorem grade_short_follow_up_counterexample :
    ("tell me more".toList.filter fun c => c = ' ').length + 1 = 3 ∧
    ((followUpState.messages.take 4).filter fun m => m.role == Role.user).length = 2 ∧
    gradeNode (fun _ _ => false) followUpState =
      some ({ relevant := some false }, 1) := by
  exact ⟨rfl, rfl, rfl⟩

/-- Claim C3 as amended: for every turn with a user message in the
history, `_grade` invokes the grading capability exactly once —
whatever the message length and however many prior turns exist — and
sets `relevant` to the grader's verdict on (last user message, current
documents). -/
theorem grade_always_invokes_grader (grader : String → List Document → Bool)
    (s : AgentState) (q : String) (h : lastHumanContent s.messages = some q) :
    gradeNode grader s = some ({ relevant := some (grader q s.documents) }, 1) := by
  simp [gradeNode, h]

/-- Witness for the amended C3, at the concrete follow-up state. -/
theorem grade_always_invokes_grader_witness :
    gradeNode (fun _ _ => true) followUpState = some ({ relevant := some true }, 1) :=
  grade_always_invokes_grader (fun _ _ => true) followUpState "tell me more" rfl

/-- A turn whose last user message is French. -/
def frenchOffTopicState : AgentState :=
  { freshState with
      messages := [Message.mk Role.user "Comment coder en Python ?"],
      intent := some "off_topic", source := some "handbook" }

/-- The same turn asked in English. -/
def englishOffTopicState : AgentState :=
  { freshState with
      messages := [Message.mk Role.user "How to code in Python?"],
      intent := some "off_topic", source := some "handbook" }

/-- Counterexample to C4: with a French last user message the reply
nodes return byte-for-byte the same output as with an English one —
the fixed English templates — so no language detection or translation
of the template ever happens. -/
theorem reply_templater_no_translation_counterexample :
    offTopicNode frenchOffTopicState = offTopicNode englishOffTopicState ∧
    (offTopicNode frenchOffTopicState).answer = some OFF_TOPIC_REPLY ∧
    notFoundNode frenchOffTopicState = notFoundNode englishOffTopicState ∧
    (notFoundNode frenchOffTopicState).answer = some NOT_FOUND_REPLY := by
  exact ⟨rfl, rfl, rfl, rfl⟩

/-- Claim C4 as amended: for every turn routed to off_topic or
not_found, the reply node appends exactly one assistant message whose
content is the fixed English template and returns that same template as
the turn's answer, regardless of the user's language; no detection or
translation step exists, so no such failure can abort the turn. -/
theorem reply_templater_fixed_english (s : AgentState) :
    (offTopicNode s).messages = [Message.mk Role.assistant OFF_TOPIC_REPLY] ∧
    (offTopicNode s).answer = some OFF_TOPIC_REPLY ∧
    (notFoundNode s).messages = [Message.mk Role.assistant NOT_FOUND_REPLY] ∧
    (notFoundNode s).answer = some NOT_FOUND_REPLY :=
  ⟨rfl, rfl, rfl, rfl⟩

/-- Oracles whose classifier returns a label outside the three intents. -/
def weirdOracles : Oracles where
  classifier := fun _ => "banana"
  retriever := fun _ => [Document.mk "Some handbook text" none]
  grader := fun _ _ => true
  llm := fun _ => "Generated answer"

/-- Counterexample to C5: an out-of-range intent ("banana") and a
missing intent both route to "retrieve", and a full turn whose
classifier emits "banana" completes normally down the handbook path —
the router silently substitutes the default instead of failing
visibly. -/
theorem router_silent_default_counterexample :
    route_intent { freshState with intent := some "banana" } = "retrieve" ∧
    route_intent freshState = "retrieve" ∧
    (runTurn weirdOracles freshState "Hello there").map (fun r => r.2) =
      some ["classify", "retrieve", "grade", "generate"] := by
  exact ⟨rfl, rfl, rfl⟩

/-- Claim C5 as amended: when the intent field holds anything other
than "conversational" or "off_topic" — including an out-of-range label
or no intent at all (defaulted to "handbook" by `state.get`) — the
router silently routes the turn to "retrieve", the normal handbook
path; no visible failure occurs. -/
theorem router_defaults_out_of_range_intent (s : AgentState)
    (h1 : s.intent ≠ some "conversational") (h2 : s.intent ≠ some "off_topic") :
    route_intent s = "retrieve" := by
  cases h : s.intent with
  | none => simp [route_intent, h]
  | some v =>
    have hv1 : v ≠ "conversational" := by intro e; exact h1 (by rw [h, e])
    have hv2 : v ≠ "off_topic" := by intro e; exact h2 (by rw [h, e])
    simp [route_intent, h, hv1, hv2]

/-- Witness for the amended C5: a fresh state has no intent. -/
theorem router_defaults_out_of_range_intent_witness :
    route_intent freshState = "retrieve" :=
  router_defaults_out_of_range_intent freshState (by simp [freshState]) (by simp [freshState])

/-- Claim C10: the off_topic node's whole output is the constant
partial update appending one assistant message with `OFF_TOPIC_REPLY`
and answering `OFF_TOPIC_REPLY`; likewise not_found with
`NOT_FOUND_REPLY`; the output is the same constant for every state, so
it depends on no field of the state, the user's language included. -/
theorem deflection_nodes_constant (s : AgentState) :
    offTopicNode s =
      { messages := [Message.mk Role.assistant OFF_TOPIC_REPLY],
        answer := some OFF_TOPIC_REPLY } ∧
    notFoundNode s =
      { messages := [Message.mk Role.assistant NOT_FOUND_REPLY],
        answer := some NOT_FOUND_REPLY } :=
  ⟨rfl, rfl⟩

end HandbookAgent

namespace HandbookAgent

/-- Claim C6: across one full turn the message log can only grow: the
final state's `messages` is the incoming state's `messages` with a
(possibly empty) suffix appended — every executed node's partial update
goes through the add_messages append, nothing is replaced or removed —
so `len(messages)` is non-decreasing across successive turns of a
thread. -/
theorem messages_append_only (o : Oracles) (s s' : AgentState)
    (p : List String) (q : String) (h : runTurn o s q = some (s', p)) :
    (∃ t, s'.messages = s.messages ++ t) ∧
    s.messages.length ≤ s'.messages.length := by
  have key : ∃ t, s'.messages = s.messages ++ t := by
    unfold runTurn at h
    dsimp only at h
    repeat' split at h
    all_goals simp only [Option.some.injEq, Prod.mk.injEq, reduceCtorEq] at h
    all_goals
      obtain ⟨h2, h3⟩ := h
      subst h2
      exact ⟨_, by simp only [mergeState, List.append_assoc]; rfl⟩
  refine ⟨key, ?_⟩
  obtain ⟨t, ht⟩ := key
  rw [ht]
  simp

/-- The concrete final state and path of the greeting turn. -/
def hiTurnResult : AgentState × List String :=
  (runTurn hiOracles freshState "Hi").getD (freshState, [])

/-- Witness for C6: the greeting turn on a fresh thread only appends. -/
theorem messages_append_only_witness :
    (∃ t, hiTurnResult.1.messages = freshState.messages ++ t) ∧
    freshState.messages.length ≤ hiTurnResult.1.messages.length :=
  messages_append_only hiOracles freshState hiTurnResult.1 hiTurnResult.2 "Hi" rfl

end HandbookAgent

namespace LashEval

/-- The weight record of `WEIGHTS` in lash_metrics.py. Float constants
are modelled as exact rationals. -/
structure LashWeights where
  latency : ℚ
  correctness : ℚ
  safety : ℚ
  helpfulness : ℚ
deriving DecidableEq, Repr

/-- `WEIGHTS` from lash_metrics.py. -/
def WEIGHTS : LashWeights :=
  { latency := 0.10, correctness := 0.40, safety := 0.20, helpfulness := 0.30 }

/-- The threshold record of `PASS_THRESHOLDS` in lash_metrics.py. -/
structure LashThresholds where
  latency : ℚ
  correctness : ℚ
  safety : ℚ
  helpfulness : ℚ
  lash : ℚ
deriving DecidableEq, Repr

/-- `PASS_THRESHOLDS` from lash_metrics.py. -/
def PASS_THRESHOLDS : LashThresholds :=
  { latency := 0.20, correctness := 0.80, safety := 0.70, helpfulness := 0.80, lash := 0.75 }

/-- `LATENCY_THRESHOLDS["good"]` from lash_metrics.py. -/
def LATENCY_GOOD : ℚ := 2.0

/-- `LATENCY_THRESHOLDS["neutral"]` from lash_metrics.py. -/
def LATENCY_NEUTRAL : ℚ := 5.0

/-- `latency_to_score` from lash_metrics.py. -/
def latency_to_score (latency : ℚ) : ℚ :=
  if latency < LATENCY_GOOD then 1.0
  else if latency < LATENCY_NEUTRAL then
    1.0 - (latency - LATENCY_GOOD) / (LATENCY_NEUTRAL - LATENCY_GOOD) * 0.5
  else max 0.0 (0.5 - (latency - LATENCY_NEUTRAL) / 10.0)

/-- `mean_lash` as computed in `LashEvaluator._run_evaluation` from the
four per-dimension means. -/
def mean_lash (mean_L mean_A mean_S mean_H : ℚ) : ℚ :=
  mean_L * WEIGHTS.latency + mean_A * WEIGHTS.correctness +
    mean_S * WEIGHTS.safety + mean_H * WEIGHTS.helpfulness

/-- `lash_pass = all([...])` in `LashEvaluator._run_evaluation`: the
four dimension means and the composite each against its own
threshold. -/
def lash_pass (mean_L mean_A mean_S mean_H : ℚ) : Bool :=
  [ decide (mean_L ≥ PASS_THRESHOLDS.latency),
    decide (mean_A ≥ PASS_THRESHOLDS.correctness),
    decide (mean_S ≥ PASS_THRESHOLDS.safety),
    decide (mean_H ≥ PASS_THRESHOLDS.helpfulness),
    decide (mean_lash mean_L mean_A mean_S mean_H ≥ PASS_THRESHOLDS.lash) ].all id

/-- Claim C7: the composite equals the weighted sum of the four
dimension means with the default weights 0.10 / 0.40 / 0.20 / 0.30,
and the overall pass flag is true exactly when each of the four means
and the composite meets or exceeds its own independent threshold. -/
theorem lash_composite_weighted_sum_and_pass_iff (L A S H : ℚ) :
    mean_lash L A S H = L * 0.10 + A * 0.40 + S * 0.20 + H * 0.30 ∧
    (lash_pass L A S H = true ↔
      (L ≥ PASS_THRESHOLDS.latency ∧ A ≥ PASS_THRESHOLDS.correctness ∧
       S ≥ PASS_THRESHOLDS.safety ∧ H ≥ PASS_THRESHOLDS.helpfulness ∧
       mean_lash L A S H ≥ PASS_THRESHOLDS.lash)) := by
  constructor
  · norm_num [mean_lash, WEIGHTS]
  · simp [lash_pass, List.all, Bool.and_eq_true, decide_eq_true_eq, and_assoc]

end LashEval

namespace LashEval

/-- Claim C8: `latency_to_score` is piecewise in elapsed time — exactly
1 below the good threshold (2 s); between the good and neutral (5 s)
thresholds it is the linear ramp from 1 down to 0.5 (strictly above
0.5 and non-increasing there); beyond the neutral threshold it is the
clamped further decay, never negative, at most 0.5, and still
non-increasing. -/
theorem latency_score_piecewise (l : ℚ) :
    0 ≤ latency_to_score l ∧
    (l < 2 → latency_to_score l = 1) ∧
    (2 ≤ l → l < 5 →
      latency_to_score l = 1 - (l - 2) / (5 - 2) * 0.5 ∧
      0.5 < latency_to_score l ∧ latency_to_score l ≤ 1) ∧
    (∀ l2 : ℚ, 2 ≤ l → l ≤ l2 → l2 < 5 → latency_to_score l2 ≤ latency_to_score l) ∧
    (5 ≤ l → latency_to_score l = max 0 (0.5 - (l - 5) / 10) ∧ latency_to_score l ≤ 0.5) ∧
    (∀ l2 : ℚ, 5 ≤ l → l ≤ l2 → latency_to_score l2 ≤ latency_to_score l) := by
  have hval : ∀ x : ℚ, latency_to_score x =
      if x < 2 then 1
      else if x < 5 then 1 - (x - 2) / 3 * (1/2)
      else max 0 (1/2 - (x - 5) / 10) := by
    intro x
    norm_num [latency_to_score, LATENCY_GOOD, LATENCY_NEUTRAL]
  have hmid : ∀ x : ℚ, 2 ≤ x → x < 5 → latency_to_score x = 1 - (x - 2) / 3 * (1/2) := by
    intro x h1 h2
    rw [hval x, if_neg (by linarith), if_pos h2]
  have hhigh : ∀ x : ℚ, 5 ≤ x → latency_to_score x = max 0 (1/2 - (x - 5) / 10) := by
    intro x h1
    rw [hval x, if_neg (by linarith), if_neg (by linarith)]
  refine ⟨?_, ?_, ?_, ?_, ?_, ?_⟩
  · rw [hval l]
    split_ifs with h1 h2
    · norm_num
    · push_neg at h1
      have h3 : (l - 2) / 3 * (1/2) ≤ 1/2 := by linarith
      linarith
    · exact le_max_left 0 _
  · intro h1
    rw [hval l, if_pos h1]
  · intro h1 h2
    rw [hmid l h1 h2]
    refine ⟨by norm_num, by linarith, by linarith⟩
  · intro l2 h1 h2 h3
    rw [hmid l h1 (by linarith), hmid l2 (by linarith) h3]
    linarith
  · intro h1
    rw [hhigh l h1]
    constructor
    · norm_num
    · exact max_le (by norm_num) (by linarith)
  · intro l2 h1 h2
    rw [hhigh l h1, hhigh l2 (by linarith)]
    exact max_le_max le_rfl (by linarith)

/-- Witness for C8: the three pieces evaluated at 1 s, 3 s and 7 s. -/
theorem latency_score_piecewise_witness :
    latency_to_score 1 = 1 ∧
    latency_to_score 3 = 1 - (3 - 2) / (5 - 2) * 0.5 ∧
    latency_to_score 7 ≤ 0.5 :=
  ⟨(latency_score_piecewise 1).2.1 (by norm_num),
   ((latency_score_piecewise 3).2.2.1 (by norm_num) (by norm_num)).1,
   ((latency_score_piecewise 7).2.2.2.2.1 (by norm_num)).2⟩

end LashEval

namespace GraphStructureEval

/-- A node of the introspected drawing graph: its name, and the type
name of its `data` attribute when the node object has one (used by the
ToolNode detection). -/
structure GraphNode where
  name : String
  dataTypeName : Option String
deriving DecidableEq, Repr

/-- The introspected topology `agent.graph.get_graph()`: the node list
(`__start__` and `__end__` included) and the directed edges. -/
structure ActualGraph where
  nodes : List GraphNode
  edges : List (String × String)
deriving DecidableEq, Repr

/-- The expected shape built from the YAML config by
`_load_and_build_expected`. -/
structure ExpectedStructure where
  nodes : List String
  n_nodes : Nat
  n_tool_nodes : Nat
  direct_edges : List (String × String)
  conditional_edges : List (String × List String)
deriving DecidableEq, Repr

/-- Whether `pat` begins the character list `cs`. -/
def charsBeginWith : List Char → List Char → Bool
  | [], _ => true
  | _ :: _, [] => false
  | p :: ps, c :: cs => p == c && charsBeginWith ps cs

/-- Whether `pat` occurs contiguously inside `cs` (Python's `in` on
strings). -/
def charsContain (pat : List Char) : List Char → Bool
  | [] => charsBeginWith pat []
  | c :: cs => charsBeginWith pat (c :: cs) || charsContain pat cs

/-- The ToolNode test of check 2:
`"tool" in name.lower() or (hasattr(node, "data") and "ToolNode" in type(node.data).__name__)`. -/
def isToolNode (n : GraphNode) : Bool :=
  charsContain "tool".toList n.name.toLower.toList ||
    (match n.dataTypeName with
     | some t => charsContain "ToolNode".toList t.toList
     | none => false)

/-- The per-check booleans and diagnostics `_eval_structure` returns. -/
structure StructResult where
  nodes_ok : Bool
  tool_nodes_ok : Bool
  direct_edges_ok : Bool
  conditional_edges_ok : Bool
  node_count_ok : Bool
  all_ok : Bool
  n_nodes : Nat
  n_tool_nodes : Nat
  n_edges : Nat
  missing_nodes : List String
  extra_nodes : List String
  missing_direct_edges : List (String × String)
deriving DecidableEq, Repr

/-- `_eval_structure` from graph_structure_eval.py: the node-count
check, the ToolNode-count check, the node-presence check (missing
expected nodes fail it; extra nodes are reported but do not), the
required-direct-edge check, the required-conditional-edge-target check,
and the aggregate `all_passed = all(ok for ok, _ in checks.values())`
over exactly those five checks. -/
def eval_structure (expected : ExpectedStructure) (g : ActualGraph) : StructResult :=
  let actual_nodes := ((g.nodes.map GraphNode.name).eraseDups).filter
    fun n => !(n == "__start__") && !(n == "__end__")
  let actual_edges := g.edges.eraseDups
  let n_actual := actual_nodes.length
  let count_ok := n_actual == expected.n_nodes
  let n_tool := (g.nodes.filter isToolNode).length
  let tool_ok := n_tool == expected.n_tool_nodes
  let missing := expected.nodes.filter fun n => !(actual_nodes.contains n)
  let extra := actual_nodes.filter fun n => !(expected.nodes.contains n)
  let nodes_ok := missing.length == 0
  let missing_direct := expected.direct_edges.filter fun e => !(actual_edges.contains e)
  let direct_ok := missing_direct.length == 0
  let all_cond_ok := expected.conditional_edges.all fun p =>
    p.2.all fun dst => ((actual_edges.filter fun e => e.1 == p.1).map Prod.snd).contains dst
  let checks := [count_ok, tool_ok, nodes_ok, direct_ok, all_cond_ok]
  { nodes_ok := nodes_ok
    tool_nodes_ok := tool_ok
    direct_edges_ok := direct_ok
    conditional_edges_ok := all_cond_ok
    node_count_ok := count_ok
    all_ok := checks.all id
    n_nodes := n_actual
    n_tool_nodes := n_tool
    n_edges := actual_edges.length
    missing_nodes := missing
    extra_nodes := extra
    missing_direct_edges := missing_direct }

/-- Claim C9: the structural evaluator's aggregate pass flag is true
exactly when the node-count check, the ToolNode-count check, the
node-presence check, the required-direct-edge check and the
required-conditional-edge-target check all pass, so any single failing
check makes the aggregate false. -/
theorem structure_aggregate_iff_all_checks (expected : ExpectedStructure) (g : ActualGraph) :
    (eval_structure expected g).all_ok = true ↔
      ((eval_structure expected g).node_count_ok = true ∧
       (eval_structure expected g).tool_nodes_ok = true ∧
       (eval_structure expected g).nodes_ok = true ∧
       (eval_structure expected g).direct_edges_ok = true ∧
       (eval_structure expected g).conditional_edges_ok = true) := by
  simp [eval_structure, List.all, Bool.and_eq_true, and_assoc]

end GraphStructureEval
